import Mathlib

/-!
Verification of the connection-pool and query-execution core of the
Database-web repository (server/storage.ts, server/routes.ts,
shared/schema.ts) against its natural-language specification.

The TypeScript source is shallowly embedded: each relevant method of
`DatabaseStorage` becomes a pure Lean function; the interaction with the
remote engine (pool.query outcomes) and with wall-clock time is passed in
explicitly as data; the mutable fields of `DatabaseStorage` (the
`connectionPools` map) and the local metadata tables become an explicit
`StorageState` threaded through the operations.
-/

namespace DatabaseWeb

/-- JavaScript scalar values as they occur in result rows: `null`,
`undefined`, booleans, numbers (integral here) and strings. Source rows are
`Record<string, any>[]` (shared/schema.ts, `QueryResult.rows`). -/
inductive Value where
  | vNull
  | vUndefined
  | vBool (b : Bool)
  | vInt (n : Int)
  | vStr (s : String)
  deriving DecidableEq, Repr

/-- A result row: an ordered list of (column name, value) pairs, modelling a
JavaScript object with its insertion-ordered keys. -/
abbrev Row := List (String × Value)

/-- JavaScript property access `row[header]`: `none` models `undefined`
for an absent key. -/
def rowLookup (r : Row) (k : String) : Option Value :=
  (r.find? (fun kv => kv.1 == k)).map (fun kv => kv.2)

/-- JavaScript `String(value)` on the scalar values above. -/
def jsStringOf : Value → String
  | Value.vNull => "null"
  | Value.vUndefined => "undefined"
  | Value.vBool b => if b then "true" else "false"
  | Value.vInt n => toString n
  | Value.vStr s => s

/-- Whether the string contains the given character, as
`stringValue.includes(c)` tests it on storage.ts line 306. -/
def charIn (c : Char) (s : String) : Bool :=
  s.data.contains c

/-- The global regex replacement `stringValue.replace(/"/g, s)` of
storage.ts line 307 with `s` the two-character string of two double
quotes: every double-quote character is doubled. -/
def doubleQuotes (s : String) : String :=
  String.mk (s.data.flatMap (fun c => if c = '"' then ['"', '"'] else [c]))

/-- One CSV field as built by `exportTableData` (storage.ts lines 302-309):
null/undefined (and an absent key) give the empty field; otherwise the
stringified value, wrapped in double quotes with inner quotes doubled when
it contains a comma, a double quote or a newline. -/
def csvField : Option Value → String
  | none => ""
  | some Value.vNull => ""
  | some Value.vUndefined => ""
  | some v =>
      let stringValue := jsStringOf v
      if charIn ',' stringValue || charIn '"' stringValue
          || charIn '\n' stringValue then
        "\"" ++ doubleQuotes stringValue ++ "\""
      else
        stringValue

/-- The CSV branch of `exportTableData` (storage.ts lines 296-313): empty
row set gives the empty string; otherwise a header line from the first
row's keys followed by one line per row, lines joined by newlines. -/
def exportCsv (rows : List Row) : String :=
  match rows with
  | [] => ""
  | r0 :: _ =>
      let headers := r0.map (fun kv => kv.1)
      let csvRows :=
        String.intercalate "," headers ::
          rows.map (fun r =>
            String.intercalate "," (headers.map (fun h => csvField (rowLookup r h))))
      String.intercalate "\n" csvRows

/-- Lower-case hex digit, used for JSON control-character escapes. -/
def hexDigit (n : Nat) : Char :=
  if n < 10 then Char.ofNat (48 + n) else Char.ofNat (87 + n)

/-- `JSON.stringify`'s escaping of a single character inside a string. -/
def jsonEscapeChar (c : Char) : String :=
  if c = '"' then "\\\""
  else if c = '\\' then "\\\\"
  else if c = '\n' then "\\n"
  else if c = '\r' then "\\r"
  else if c = '\t' then "\\t"
  else if c.toNat = 8 then "\\b"
  else if c.toNat = 12 then "\\f"
  else if c.toNat < 32 then
    "\\u00" ++ String.mk [hexDigit (c.toNat / 16), hexDigit (c.toNat % 16)]
  else String.mk [c]

/-- `JSON.stringify` of a string value. -/
def jsonQuote (s : String) : String :=
  "\"" ++ String.join (s.data.map jsonEscapeChar) ++ "\""

/-- `JSON.stringify` of a scalar property value; `none` for `undefined`,
whose properties `JSON.stringify` omits from the object entirely. -/
def jsonOfValue : Value → Option String
  | Value.vUndefined => none
  | Value.vNull => some "null"
  | Value.vBool b => some (if b then "true" else "false")
  | Value.vInt n => some (toString n)
  | Value.vStr s => some (jsonQuote s)

/-- `JSON.stringify(row, null, 2)` rendering of one flat row object as it
appears nested at depth 1 inside the rows array (keys indented four
spaces, closing brace two): properties with `undefined` values are
omitted, an object with no remaining properties prints as `\x7b\x7d`. -/
def jsonOfRow (r : Row) : String :=
  let entries := r.filterMap (fun kv =>
    (jsonOfValue kv.2).map (fun v => "    " ++ jsonQuote kv.1 ++ ": " ++ v))
  if entries.isEmpty then "\x7b\x7d"
  else "\x7b\n" ++ String.intercalate ",\n" entries ++ "\n  \x7d"

/-- `JSON.stringify(rows, null, 2)` for a flat array of row objects
(storage.ts line 294): the empty array prints as `[]`. -/
def jsonStringifyRows (rows : List Row) : String :=
  if rows.isEmpty then "[]"
  else
    "[\n" ++ String.intercalate ",\n" (rows.map (fun r => "  " ++ jsonOfRow r)) ++ "\n]"

/-- The `format` argument of `exportTableData`. -/
inductive ExportFormat where
  | csv
  | json
  deriving DecidableEq, Repr

/-- Serialization performed by `exportTableData` (storage.ts lines
293-314) on the fetched rows: `JSON.stringify(result.rows, null, 2)` for
json, the hand-rolled CSV writer otherwise. -/
def exportTableData (rows : List Row) : ExportFormat → String
  | ExportFormat.json => jsonStringifyRows rows
  | ExportFormat.csv => exportCsv rows

/-! Spec-side serialization definitions, written from the specification's
words (section 4.6) to compare against the code's serializer. -/

/-- Spec section 4.6: a stringified value containing a comma, double quote
or newline is wrapped in double quotes with internal double quotes
doubled; other values pass through unchanged. -/
def specEscape (s : String) : String :=
  if charIn ',' s || charIn '"' s || charIn '\n' s then
    "\"" ++ doubleQuotes s ++ "\""
  else s

/-- Spec section 4.6: null/undefined values serialize to an empty CSV
field; any other value is stringified and escaped. An absent key reads as
undefined. -/
def specFieldOf (v : Option Value) : String :=
  match v with
  | some (Value.vBool b) => specEscape (jsStringOf (Value.vBool b))
  | some (Value.vInt n) => specEscape (jsStringOf (Value.vInt n))
  | some (Value.vStr s) => specEscape (jsStringOf (Value.vStr s))
  | _ => ""

/-- CSV serialization as the specification describes it (section 4.6): an
empty table yields an empty string with no header; otherwise a header line
of column names taken from the first row's keys, followed by one line per
row of escaped fields. -/
def csvSpec (rows : List Row) : String :=
  match rows with
  | [] => ""
  | r0 :: _ =>
      let columnNames := r0.map Prod.fst
      String.intercalate "\n"
        (String.intercalate "," columnNames ::
          rows.map (fun r =>
            String.intercalate "," (columnNames.map (fun h => specFieldOf (rowLookup r h)))))

/-- JSON property rendering that the claim's words mandate: null AND
undefined values both appear as `null`. This follows the claim text
(not the code) and is compared against the code's serializer. -/
def jsonClaimValue : Value → String
  | Value.vUndefined => "null"
  | Value.vNull => "null"
  | Value.vBool b => if b then "true" else "false"
  | Value.vInt n => toString n
  | Value.vStr s => jsonQuote s

/-- Pretty-printed JSON array as the claim's words mandate, with
undefined-valued keys kept and rendered as `null`. -/
def jsonClaimRow (r : Row) : String :=
  if r.isEmpty then "\x7b\x7d"
  else
    "\x7b\n"
      ++ String.intercalate ",\n"
          (r.map (fun kv => "    " ++ jsonQuote kv.1 ++ ": " ++ jsonClaimValue kv.2))
      ++ "\n  \x7d"

/-- The claim-mandated JSON serialization of the row array. -/
def jsonClaimRows (rows : List Row) : String :=
  if rows.isEmpty then "[]"
  else
    "[\n" ++ String.intercalate ",\n" (rows.map (fun r => "  " ++ jsonClaimRow r)) ++ "\n]"

/-! Statement building in `getTableData` and `exportTableData`
(storage.ts lines 207-247 and 289-291). -/

/-- A value placed in the statement's parameter array (`values` in the
source): the numeric limit/offset or a string pattern. -/
inductive SqlValue where
  | num (n : Int)
  | str (s : String)
  deriving DecidableEq, Repr

/-- The filter map handed to `getTableData`: iteration-ordered
(key, value) pairs, with `none` modelling a key bound to `undefined`
(storage.ts line 213, `filters?: Record<string, any>`). -/
abbrev Filters := List (String × Option String)

/-- The filter pairs that survive the source's
`value !== undefined && value !== ''` filter (storage.ts line 224). -/
def keptFilters (filters : Filters) : List (String × String) :=
  filters.filterMap (fun kv =>
    match kv.2 with
    | none => none
    | some v => if v = "" then none else some (kv.1, v))

/-- The condition strings built on storage.ts lines 225-229: the i-th kept
pair (0-based) yields the text `key::text ILIKE $(i+3)`, since `paramCount`
starts at 2 (limit and offset occupy parameters one and two). -/
def conditionStrings (kept : List (String × String)) : List String :=
  kept.enum.map (fun p => p.2.1 ++ "::text ILIKE $" ++ toString (p.1 + 3))

/-- The `whereClause` of storage.ts lines 218-234: empty when no condition
survives, otherwise WHERE with the conditions joined by AND. -/
def whereClause (filters : Filters) : String :=
  match conditionStrings (keptFilters filters) with
  | [] => ""
  | conds => "WHERE " ++ String.intercalate " AND " conds

/-- The statement text built on storage.ts line 236:
`SELECT * FROM ${table} ${whereClause} LIMIT $1 OFFSET $2`, the table
identifier interpolated verbatim. -/
def getTableDataQuery (table : String) (filters : Filters) : String :=
  "SELECT * FROM " ++ table ++ " " ++ whereClause filters ++ " LIMIT $1 OFFSET $2"

/-- The parameter array built on storage.ts lines 219 and 227: limit and
offset first, then `%value%` for each kept filter pair. -/
def getTableDataValues (lim off : Int) (filters : Filters) : List SqlValue :=
  SqlValue.num lim :: SqlValue.num off ::
    (keptFilters filters).map (fun kv => SqlValue.str ("%" ++ kv.2 ++ "%"))

/-- The statement text built on storage.ts line 291:
`SELECT * FROM ${table}`, again with the identifier spliced verbatim. -/
def exportTableDataQuery (table : String) : String :=
  "SELECT * FROM " ++ table

/-! The query executor `executeQuery` (storage.ts lines 249-287) and the
history recorder `saveQueryHistory` (lines 325-331). -/

/-- A JavaScript thrown value as `executeQuery`'s catch sees it: either an
`Error` instance carrying a message, or some non-Error value. -/
inductive JsError where
  | errObj (msg : String)
  | nonError
  deriving DecidableEq, Repr

/-- storage.ts line 274:
`error instanceof Error ? error.message : 'Unknown error'`. -/
def errorMessageOf : JsError → String
  | JsError.errObj m => m
  | JsError.nonError => "Unknown error"

/-- The outcome of `pool.query(query)` as the remote engine produces it:
either a result (rowCount may be null, fields may be absent) or a thrown
error. -/
inductive EngineOutcome where
  | success (rowCount : Option Nat) (rows : List Row) (fields : Option (List String))
  | failure (e : JsError)
  deriving DecidableEq, Repr

/-- Whether the engine outcome is a success. -/
def EngineOutcome.isSuccess : EngineOutcome → Bool
  | EngineOutcome.success _ _ _ => true
  | EngineOutcome.failure _ => false

/-- The `QueryResult` shape of shared/schema.ts lines 76-81. -/
structure QueryResult where
  rows : List Row
  rowCount : Nat
  executionTime : Nat
  columns : List String
  deriving DecidableEq, Repr

/-- One row of the `query_history` table (shared/schema.ts lines 25-34),
as inserted by `saveQueryHistory`. -/
structure HistoryEntry where
  connectionId : String
  query : String
  executionTime : Nat
  rowsAffected : Nat
  success : Bool
  error : Option String
  deriving DecidableEq, Repr

/-- `executeQuery` (storage.ts lines 249-287), given the engine's outcome
and the elapsed wall-clock time (`Date.now() - startTime`): on success it
appends a success entry via `saveQueryHistory` and returns the normalized
result; on failure it appends a failure entry with rowsAffected 0 and the
extracted message, then rethrows the original error. The source contains
no timeout logic: the outcome and the elapsed time are independent
inputs and no elapsed value alters the classification. -/
def executeQuery (connectionId query : String) (outcome : EngineOutcome)
    (elapsed : Nat) (hist : List HistoryEntry) :
    Except JsError QueryResult × List HistoryEntry :=
  match outcome with
  | EngineOutcome.success rc rows fields =>
      (Except.ok ⟨rows, rc.getD 0, elapsed, fields.getD []⟩,
       hist ++ [⟨connectionId, query, elapsed, rc.getD 0, true, none⟩])
  | EngineOutcome.failure e =>
      (Except.error e,
       hist ++ [⟨connectionId, query, elapsed, 0, false, some (errorMessageOf e)⟩])

/-! `testConnection` (storage.ts lines 98-115). -/

/-- Where, if anywhere, the try block of `testConnection` throws: pool
construction (line 100), the `SELECT 1` liveness probe (line 109), or
`pool.end()` (line 110); `allOk` when every step succeeds. -/
inductive TestOutcome where
  | ctorFail
  | queryFail
  | endFail
  | allOk
  deriving DecidableEq, Repr

/-- Whether the `SELECT 1` probe itself succeeded in the given outcome. -/
def TestOutcome.querySucceeded : TestOutcome → Bool
  | TestOutcome.endFail => true
  | TestOutcome.allOk => true
  | _ => false

/-- `testConnection`'s returned boolean: the catch turns every throw into
`false`; `true` is returned only after the probe and `pool.end()` both
complete (storage.ts lines 99-114). -/
def testConnectionResult : TestOutcome → Bool
  | TestOutcome.allOk => true
  | _ => false

/-! The connection registry and the pool manager: `connections` rows
(shared/schema.ts lines 12-23), the `connectionPools` map (storage.ts line
47) and the operations that touch them. -/

/-- A stored connection record (`connections` table). Timestamps are
modelled as naturals from `Date.now()`. -/
structure Connection where
  id : String
  name : String
  host : String
  port : Int
  database : String
  username : String
  password : String
  ssl : Bool
  createdAt : Nat
  updatedAt : Nat
  deriving DecidableEq, Repr

/-- The configuration a `new Pool(...)` call is given (storage.ts lines
100-107 and 124-131): a pool is bound to the credentials read at the
moment of its construction. -/
structure PoolConfig where
  host : String
  port : Int
  database : String
  user : String
  password : String
  ssl : Bool
  deriving DecidableEq, Repr

/-- The pool configuration derived from a connection record, exactly as
`getConnectionPool` builds it (storage.ts lines 124-131). -/
def poolConfigOf (c : Connection) : PoolConfig :=
  ⟨c.host, c.port, c.database, c.username, c.password, c.ssl⟩

/-- A constructed pool object, tracked for its whole lifetime: its frozen
configuration and whether `pool.end()` has been called on it. -/
structure PoolObj where
  config : PoolConfig
  ended : Bool
  deriving DecidableEq, Repr

/-- The mutable state of `DatabaseStorage`: the persisted `connections`
rows, every pool object ever constructed (`poolStore`, addressed by
index), the `connectionPools` map from connection id to pool index, and
the persisted query history. -/
structure StorageState where
  connections : List Connection
  poolStore : List PoolObj
  connectionPools : List (String × Nat)
  history : List HistoryEntry
  deriving DecidableEq, Repr

/-- `getConnection` (storage.ts lines 71-74): lookup of a connection row
by id. -/
def getConnection (id : String) (s : StorageState) : Option Connection :=
  s.connections.find? (fun c => c.id == id)

/-- A partial update as `updateConnection` receives it
(`Partial<InsertConnection>`): every insertable field optional. -/
structure ConnectionPatch where
  name : Option String := none
  host : Option String := none
  port : Option Int := none
  database : Option String := none
  username : Option String := none
  password : Option String := none
  ssl : Option Bool := none
  deriving DecidableEq, Repr

/-- The drizzle `.set(\x7b ...connection, updatedAt: new Date() \x7d)` merge of
storage.ts line 87: provided fields overwrite, `updatedAt` is refreshed. -/
def applyPatch (c : Connection) (p : ConnectionPatch) (now : Nat) : Connection :=
  { c with
    name := p.name.getD c.name
    host := p.host.getD c.host
    port := p.port.getD c.port
    database := p.database.getD c.database
    username := p.username.getD c.username
    password := p.password.getD c.password
    ssl := p.ssl.getD c.ssl
    updatedAt := now }

/-- `updateConnection` (storage.ts lines 84-91): updates the matching
`connections` row and returns it. It reads and writes only the database
table; the `connectionPools` map and the pool store are not mentioned in
its body. Returns `none` when no row matches (the source would yield
`undefined`). -/
def updateConnection (id : String) (p : ConnectionPatch) (now : Nat)
    (s : StorageState) : Option Connection × StorageState :=
  match s.connections.find? (fun c => c.id == id) with
  | none => (none, s)
  | some c =>
      let c' := applyPatch c p now
      (some c',
       { s with connections := s.connections.map (fun d => if d.id == id then c' else d) })

/-- `deleteConnection` (storage.ts lines 93-96):
`this.connectionPools.delete(id)` removes the map entry, then the
`connections` row is deleted. No `pool.end()` is called anywhere on the
removed pool (the only `pool.end()` in the source is `testConnection`'s,
on its own throwaway pool), so every `ended` flag in the pool store is
left as it was. -/
def deleteConnection (id : String) (s : StorageState) : StorageState :=
  { s with
    connectionPools := s.connectionPools.filter (fun e => e.1 ≠ id)
    connections := s.connections.filter (fun c => c.id ≠ id) }

/-- `getConnectionPool` (storage.ts lines 117-137): return the mapped pool
when one exists; otherwise look the record up, failing with
`Connection not found` when absent, else construct a pool from the
record's current credentials, store it in the map and return it. The
returned `Nat` indexes the pool store. -/
def getConnectionPool (id : String) (s : StorageState) :
    Except String (Nat × StorageState) :=
  match s.connectionPools.lookup id with
  | some i => Except.ok (i, s)
  | none =>
      match s.connections.find? (fun c => c.id == id) with
      | none => Except.error "Connection not found"
      | some c =>
          let i := s.poolStore.length
          Except.ok (i,
            { s with
              poolStore := s.poolStore ++ [⟨poolConfigOf c, false⟩]
              connectionPools := s.connectionPools ++ [(id, i)] })

/-- The insertable connection fields handed to `testConnection`
(`InsertConnection`). -/
structure InsertConnection where
  name : String
  host : String
  port : Int
  database : String
  username : String
  password : String
  ssl : Bool
  deriving DecidableEq, Repr

/-- `testConnection` (storage.ts lines 98-115) as a state transformer:
its body constructs a local throwaway pool from the supplied record,
probes it and ends it, returning a boolean. The body never reads or
writes `this.connectionPools`, the pool store of managed pools, the
`connections` table or the history, so the storage state passes through
untouched. -/
def testConnection (_record : InsertConnection) (outcome : TestOutcome)
    (s : StorageState) : Bool × StorageState :=
  (testConnectionResult outcome, s)

/-! Concrete states used to evaluate the pool-lifecycle operations. -/

/-- A registered connection record with password `oldpass`. -/
def demoConnection : Connection :=
  ⟨"c1", "prod", "db.example.com", 5432, "app", "admin", "oldpass", true, 0, 0⟩

/-- Storage state holding the record `c1` and no pool yet. -/
def demoState : StorageState := ⟨[demoConnection], [], [], []⟩

/-- Storage state after the first acquire for `c1`: one pool, built from
the record's credentials at construction time, mapped at index 0. -/
def demoStateWithPool : StorageState :=
  ⟨[demoConnection], [⟨poolConfigOf demoConnection, false⟩], [("c1", 0)], []⟩

/-- A credentials update: the password changes to `newpass`. -/
def passwordPatch : ConnectionPatch := { password := some "newpass" }

/-- A fetched row whose only property carries the value `undefined`. -/
def undefinedRow : Row := [("a", Value.vUndefined)]

/-! Helper lemmas. -/

/-- The code's CSV field serialization agrees with the specification's
field description on every value. -/
theorem csvField_eq_specFieldOf (v : Option Value) : csvField v = specFieldOf v := by
  match v with
  | none => rfl
  | some Value.vNull => rfl
  | some Value.vUndefined => rfl
  | some (Value.vBool b) => rfl
  | some (Value.vInt n) => rfl
  | some (Value.vStr s) => rfl

/-- The code's CSV writer agrees with the specification's CSV description
on every row set. -/
theorem exportCsv_eq_csvSpec (rows : List Row) : exportCsv rows = csvSpec rows := by
  cases rows with
  | nil => rfl
  | cons r0 rest =>
      simp only [exportCsv, csvSpec, csvField_eq_specFieldOf]

/-! Claim theorems. -/

/-- Claim C1, refuted on the code: the table identifier handed to
`getTableData` and to `exportTableData` is spliced verbatim into the
statement text with no lookup against any schema listing and no
`ValidationError` path at all — the builders are total functions of the
raw strings, so even an obviously malicious identifier such as
`users; DROP TABLE users --` flows straight into the executed statement,
and a filter column name is likewise interpolated unchecked. -/
theorem getTableData_splices_identifiers_unvalidated :
    getTableDataQuery "users; DROP TABLE users --" []
      = "SELECT * FROM users; DROP TABLE users --  LIMIT $1 OFFSET $2"
    ∧ exportTableDataQuery "users; DROP TABLE users --"
      = "SELECT * FROM users; DROP TABLE users --"
    ∧ (∀ table : String, getTableDataQuery table []
        = "SELECT * FROM " ++ table ++ "  LIMIT $1 OFFSET $2")
    ∧ (∀ table : String, exportTableDataQuery table = "SELECT * FROM " ++ table)
    ∧ whereClause [("username; malicious", some "x")]
        = "WHERE username; malicious::text ILIKE $3" := by
  refine ⟨rfl, rfl, ?_, fun _ => rfl, rfl⟩
  intro t
  simp [getTableDataQuery, whereClause, keptFilters, conditionStrings,
    String.append_assoc]

/-- Claim C2, refuted on the code: with filters
`\x7bsearch: "admin", column: "username"\x7d` — exactly what the HTTP route
forwards from the query string (routes.ts line 105) — `getTableData`
treats the keys `search` and `column` themselves as column names and emits
TWO ILIKE conditions, `search::text ILIKE $3` bound to `%admin%` and
`column::text ILIKE $4` bound to `%username%`, not the single condition on
`username` bound to `%admin%` that the claim states. The values are
bound as parameters, and an empty or undefined filter value is dropped, as
the claim's general clause says. -/
theorem getTableData_filter_keys_become_columns :
    getTableDataQuery "users" [("search", some "admin"), ("column", some "username")]
      = "SELECT * FROM users WHERE search::text ILIKE $3 AND column::text ILIKE $4 LIMIT $1 OFFSET $2"
    ∧ getTableDataValues 25 0 [("search", some "admin"), ("column", some "username")]
      = [SqlValue.num 25, SqlValue.num 0, SqlValue.str "%admin%", SqlValue.str "%username%"]
    ∧ getTableDataQuery "users" [("name", some ""), ("x", none)]
      = "SELECT * FROM users  LIMIT $1 OFFSET $2" :=
  ⟨rfl, rfl, rfl⟩

/-- Claim C3, refuted on the code: `executeQuery` has no timeout
mechanism. The elapsed wall-clock time is measured but never compared to
any bound: whatever nonzero `timeout` one picks, a statement whose
execution took `timeout + 1` still completes as an ordinary success whose
history entry has `success = true` — no elapsed value is ever surfaced or
recorded as a Timeout failure. -/
theorem executeQuery_elapsed_time_never_causes_failure (timeout : Nat)
    (cid q : String) (rc : Option Nat) (rows : List Row)
    (fields : Option (List String)) (hist : List HistoryEntry) :
    ∃ e : HistoryEntry,
      executeQuery cid q (EngineOutcome.success rc rows fields) (timeout + 1) hist
        = (Except.ok ⟨rows, rc.getD 0, timeout + 1, fields.getD []⟩, hist ++ [e])
      ∧ e.success = true ∧ e.executionTime = timeout + 1 :=
  ⟨_, rfl, rfl, rfl⟩

/-- Claim C4, confirmed: every `executeQuery` call, for every engine
outcome, appends exactly one history entry for the given connection id
whose success flag matches the outcome and whose error field is populated
exactly on failure; on failure the entry records rowsAffected 0 and the
engine's error message, and the original error is returned to the caller
rather than swallowed. -/
theorem executeQuery_records_every_call (cid q : String) (t : Nat)
    (hist : List HistoryEntry) :
    (∀ o : EngineOutcome, ∃ e : HistoryEntry,
        (executeQuery cid q o t hist).2 = hist ++ [e]
        ∧ e.connectionId = cid ∧ e.query = q
        ∧ e.success = o.isSuccess
        ∧ e.error.isNone = o.isSuccess)
    ∧ (∀ msg : String, ∃ e : HistoryEntry,
        executeQuery cid q (EngineOutcome.failure (JsError.errObj msg)) t hist
          = (Except.error (JsError.errObj msg), hist ++ [e])
        ∧ e.rowsAffected = 0 ∧ e.success = false ∧ e.error = some msg) := by
  constructor
  · intro o
    cases o with
    | success rc rows fields => exact ⟨_, rfl, rfl, rfl, rfl, rfl⟩
    | failure e => exact ⟨_, rfl, rfl, rfl, rfl, rfl⟩
  · intro msg
    exact ⟨_, rfl, rfl, rfl, rfl⟩

/-- Claim C5, refuted on the code: after `updateConnection` changes the
password of `c1` from `oldpass` to `newpass`, the `connectionPools` map
still holds the pool constructed from the old credentials, and the next
`getConnectionPool` returns exactly that stale pool — nothing invalidates
or replaces it. -/
theorem updateConnection_leaves_stale_pool :
    getConnectionPool "c1" demoState = Except.ok (0, demoStateWithPool)
    ∧ (updateConnection "c1" passwordPatch 5 demoStateWithPool).1
        = some { demoConnection with password := "newpass", updatedAt := 5 }
    ∧ (updateConnection "c1" passwordPatch 5 demoStateWithPool).2.connectionPools
        = [("c1", 0)]
    ∧ (updateConnection "c1" passwordPatch 5 demoStateWithPool).2.poolStore
        = [⟨⟨"db.example.com", 5432, "app", "admin", "oldpass", true⟩, false⟩]
    ∧ getConnectionPool "c1" (updateConnection "c1" passwordPatch 5 demoStateWithPool).2
        = Except.ok (0, (updateConnection "c1" passwordPatch 5 demoStateWithPool).2) :=
  ⟨rfl, rfl, rfl, rfl, rfl⟩

/-- Claim C6, partially refuted on the code: deleting `c1` while its pool
is live does remove the `connectionPools` entry (before the record
deletion, as the source orders the two statements) and a subsequent
acquire fails with `Connection not found`; but the dropped pool object is
never ended — its `ended` flag is still `false` after the deletion, i.e.
the underlying connections are not closed, merely unreferenced. -/
theorem deleteConnection_removes_mapping_without_closing :
    (deleteConnection "c1" demoStateWithPool).connectionPools = []
    ∧ (deleteConnection "c1" demoStateWithPool).poolStore
        = [⟨poolConfigOf demoConnection, false⟩]
    ∧ getConnectionPool "c1" (deleteConnection "c1" demoStateWithPool)
        = Except.error "Connection not found" :=
  ⟨rfl, rfl, rfl⟩

/-- Claim C7 counterexample: on a row whose property `a` holds
`undefined`, the code's JSON export (JSON.stringify) omits the key
entirely, printing an empty object, whereas the claim's words mandate the
key rendered with the value `null`; the two serializations differ. -/
theorem export_json_undefined_key_omitted_not_null :
    exportTableData [undefinedRow] ExportFormat.json = "[\n  \x7b\x7d\n]"
    ∧ jsonClaimRows [undefinedRow] = "[\n  \x7b\n    \"a\": null\n  \x7d\n]"
    ∧ exportTableData [undefinedRow] ExportFormat.json ≠ jsonClaimRows [undefinedRow] := by
  refine ⟨rfl, rfl, ?_⟩
  decide

/-- Claim C7 as amended: the CSV export equals the specification's CSV
serialization on every row set (header from the first row's keys,
null/undefined as empty fields, comma/quote/newline wrapped with quotes
doubled), the empty table yields `` for CSV and `[]` for JSON, the row
with id 1 and name `A,B` yields header `id,name` and data line
`1,"A,B"`, and in JSON null values appear as null while undefined-valued
keys are omitted from the row object. -/
theorem export_serialization_matches_amended_spec :
    (∀ rows : List Row, exportTableData rows ExportFormat.csv = csvSpec rows)
    ∧ exportTableData [] ExportFormat.json = "[]"
    ∧ exportTableData [] ExportFormat.csv = ""
    ∧ exportTableData [[("id", Value.vInt 1), ("name", Value.vStr "A,B")]] ExportFormat.csv
        = "id,name\n1,\"A,B\""
    ∧ exportTableData [[("a", Value.vNull), ("b", Value.vUndefined)]] ExportFormat.json
        = "[\n  \x7b\n    \"a\": null\n  \x7d\n]" :=
  ⟨fun rows => exportCsv_eq_csvSpec rows, rfl, rfl, rfl, rfl⟩

/-- Claim C8, confirmed: `testConnection` is a pure probe — for every
input record, every outcome of the probe, and every storage state, the
persistent state (in particular the `connectionPools` map) passes through
completely unchanged, on the success path and on every failure path. -/
theorem testConnection_preserves_pool_map (r : InsertConnection)
    (o : TestOutcome) (s : StorageState) :
    (testConnection r o s).2.connectionPools = s.connectionPools
    ∧ (testConnection r o s).2 = s :=
  ⟨rfl, rfl⟩

/-- Claim C9, confirmed: on every successful `executeQuery`, the appended
history entry agrees with the returned result — same rowsAffected/rowCount
(both `result.rowCount || 0`) and same executionTime. -/
theorem executeQuery_history_consistent_with_result (cid q : String)
    (rc : Option Nat) (rows : List Row) (fields : Option (List String))
    (t : Nat) (hist : List HistoryEntry) :
    ∃ (r : QueryResult) (e : HistoryEntry),
      executeQuery cid q (EngineOutcome.success rc rows fields) t hist
        = (Except.ok r, hist ++ [e])
      ∧ e.rowsAffected = r.rowCount ∧ e.executionTime = r.executionTime :=
  ⟨_, _, rfl, rfl, rfl⟩

/-- Claim C10, confirmed: `testConnection` always returns a boolean to its
caller — the catch converts a throw from pool construction, from the
`SELECT 1` probe, or from `pool.end()` into `false`; it returns `true`
exactly when every step succeeded, and whenever it returns `true` the
liveness probe itself succeeded. -/
theorem testConnection_total_over_failures :
    (∀ (r : InsertConnection) (o : TestOutcome) (s : StorageState),
        (testConnection r o s).1 = testConnectionResult o)
    ∧ (∀ o : TestOutcome, testConnectionResult o = (o == TestOutcome.allOk))
    ∧ (∀ o : TestOutcome, (!testConnectionResult o || o.querySucceeded) = true)
    ∧ testConnectionResult TestOutcome.ctorFail = false
    ∧ testConnectionResult TestOutcome.queryFail = false
    ∧ testConnectionResult TestOutcome.endFail = false := by
  refine ⟨fun _ _ _ => rfl, ?_, ?_, rfl, rfl, rfl⟩ <;> (intro o; cases o <;> rfl)

end DatabaseWeb
